/-
Verification of the buttplug server core against its specification.

The Rust sources embedded here:
  src/buttplug/src/core/messages/mod.rs
  src/buttplug/src/device/protocol/lovehoney_desire.rs
  src/buttplug/src/server/device_manager.rs
  src/buttplug/src/server/comm_managers/btleplug/btleplug_device_impl.rs

Machine integers (u32, u8) are modelled as Nat; the `as u8` cast is `% 256`.
f64 command values are modelled as ℚ: the code only compares them against
0.0 and 1.0 and multiplies by small integers, which ℚ models exactly
(NaN fails both comparisons in Rust and has no ℚ counterpart; the claims
checked here only quantify over ordered values).
-/
import Mathlib

/-- Model of `ButtplugMessageError` (core/errors.rs, interface level):
the error variants constructed by the code under verification. -/
inductive ButtplugMessageError where
  | InvalidMessageContents (msg : String)
  | MessageConversionError (msg : String)
  | VersionError (src : String) (msg : String) (dst : String)
  | UnexpectedMessageType (msg : String)
  deriving Repr, DecidableEq

/-- Rust `ButtplugMessageValidator::is_system_id` (messages/mod.rs lines 145-153). -/
def is_system_id (id : Nat) : Except ButtplugMessageError Unit :=
  if id == 0 then
    .ok ()
  else
    .error (.InvalidMessageContents
      "Message should have id of 0, as it is a system message.")

/-- Rust `ButtplugMessageValidator::is_not_system_id` (messages/mod.rs lines 155-163). -/
def is_not_system_id (id : Nat) : Except ButtplugMessageError Unit :=
  if id == 0 then
    .error (.InvalidMessageContents
      "Message should not have 0 for an Id. Id of 0 is reserved for system messages.")
  else
    .ok ()

/-- Rust `ButtplugMessageValidator::is_in_command_range` (messages/mod.rs lines 165-171):
`if !(0.0..=1.0).contains(&value) \x7b Err \x7d else \x7b Ok \x7d`. -/
def is_in_command_range (value : ℚ) (error_msg : String) : Except ButtplugMessageError Unit :=
  if ¬(0 ≤ value ∧ value ≤ 1) then
    .error (.InvalidMessageContents error_msg)
  else
    .ok ()

/-- Rust `ButtplugDeviceMessageType` (messages/mod.rs lines 186-204), in declaration
order: generic commands first, then the deprecated commands. -/
inductive ButtplugDeviceMessageType where
  | VibrateCmd
  | LinearCmd
  | RotateCmd
  | StopDeviceCmd
  | RawWriteCmd
  | RawReadCmd
  | RawSubscribeCmd
  | RawUnsubscribeCmd
  | BatteryLevelCmd
  | RSSILevelCmd
  | SingleMotorVibrateCmd
  | FleshlightLaunchFW12Cmd
  | LovenseCmd
  | KiirooCmd
  | VorzeA10CycloneCmd
  deriving Repr, DecidableEq

/-- The strum `Display` derive on `ButtplugDeviceMessageType`: each variant
renders as its own name. -/
def ButtplugDeviceMessageType.to_string : ButtplugDeviceMessageType → String
  | .VibrateCmd => "VibrateCmd"
  | .LinearCmd => "LinearCmd"
  | .RotateCmd => "RotateCmd"
  | .StopDeviceCmd => "StopDeviceCmd"
  | .RawWriteCmd => "RawWriteCmd"
  | .RawReadCmd => "RawReadCmd"
  | .RawSubscribeCmd => "RawSubscribeCmd"
  | .RawUnsubscribeCmd => "RawUnsubscribeCmd"
  | .BatteryLevelCmd => "BatteryLevelCmd"
  | .RSSILevelCmd => "RSSILevelCmd"
  | .SingleMotorVibrateCmd => "SingleMotorVibrateCmd"
  | .FleshlightLaunchFW12Cmd => "FleshlightLaunchFW12Cmd"
  | .LovenseCmd => "LovenseCmd"
  | .KiirooCmd => "KiirooCmd"
  | .VorzeA10CycloneCmd => "VorzeA10CycloneCmd"

/-- Position of each `ButtplugDeviceMessageType` variant in the source
declaration (the order a derived `Ord` would use). -/
def ButtplugDeviceMessageType.declIdx : ButtplugDeviceMessageType → Nat
  | .VibrateCmd => 0
  | .LinearCmd => 1
  | .RotateCmd => 2
  | .StopDeviceCmd => 3
  | .RawWriteCmd => 4
  | .RawReadCmd => 5
  | .RawSubscribeCmd => 6
  | .RawUnsubscribeCmd => 7
  | .BatteryLevelCmd => 8
  | .RSSILevelCmd => 9
  | .SingleMotorVibrateCmd => 10
  | .FleshlightLaunchFW12Cmd => 11
  | .LovenseCmd => 12
  | .KiirooCmd => 13
  | .VorzeA10CycloneCmd => 14

/-- Byte-wise lexicographic comparison of strings as lists of characters,
matching Rust `str::cmp` on ASCII data. -/
def strLexCompare : List Char → List Char → Ordering
  | [], [] => .eq
  | [], _ :: _ => .lt
  | _ :: _, [] => .gt
  | a :: as, b :: bs =>
    match compare a.toNat b.toNat with
    | .eq => strLexCompare as bs
    | o => o

/-- Rust `Ord for ButtplugDeviceMessageType` (messages/mod.rs lines 214-218):
`self.to_string().cmp(&other.to_string())`. -/
def ButtplugDeviceMessageType.cmp (a b : ButtplugDeviceMessageType) : Ordering :=
  strLexCompare a.to_string.data b.to_string.data

/-- Rust `ButtplugCurrentSpecDeviceMessageType` (messages/mod.rs lines 222-239):
only the messages valid in the current spec version. -/
inductive ButtplugCurrentSpecDeviceMessageType where
  | VibrateCmd
  | LinearCmd
  | RotateCmd
  | StopDeviceCmd
  | RawWriteCmd
  | RawReadCmd
  | RawSubscribeCmd
  | RawUnsubscribeCmd
  | BatteryLevelCmd
  | RSSILevelCmd
  deriving Repr, DecidableEq

/-- The strum `Display` derive on `ButtplugCurrentSpecDeviceMessageType`. -/
def ButtplugCurrentSpecDeviceMessageType.to_string :
    ButtplugCurrentSpecDeviceMessageType → String
  | .VibrateCmd => "VibrateCmd"
  | .LinearCmd => "LinearCmd"
  | .RotateCmd => "RotateCmd"
  | .StopDeviceCmd => "StopDeviceCmd"
  | .RawWriteCmd => "RawWriteCmd"
  | .RawReadCmd => "RawReadCmd"
  | .RawSubscribeCmd => "RawSubscribeCmd"
  | .RawUnsubscribeCmd => "RawUnsubscribeCmd"
  | .BatteryLevelCmd => "BatteryLevelCmd"
  | .RSSILevelCmd => "RSSILevelCmd"

/-- Position of each `ButtplugCurrentSpecDeviceMessageType` variant in the
source declaration. -/
def ButtplugCurrentSpecDeviceMessageType.declIdx :
    ButtplugCurrentSpecDeviceMessageType → Nat
  | .VibrateCmd => 0
  | .LinearCmd => 1
  | .RotateCmd => 2
  | .StopDeviceCmd => 3
  | .RawWriteCmd => 4
  | .RawReadCmd => 5
  | .RawSubscribeCmd => 6
  | .RawUnsubscribeCmd => 7
  | .BatteryLevelCmd => 8
  | .RSSILevelCmd => 9

/-- Rust `Ord for ButtplugCurrentSpecDeviceMessageType` (messages/mod.rs
lines 249-253). -/
def ButtplugCurrentSpecDeviceMessageType.cmp
    (a b : ButtplugCurrentSpecDeviceMessageType) : Ordering :=
  strLexCompare a.to_string.data b.to_string.data

/-- Rust `TryFrom<ButtplugDeviceMessageType> for ButtplugCurrentSpecDeviceMessageType`
(messages/mod.rs lines 255-286): the ten live variants convert, the five
deprecated ones fail with a `MessageConversionError`. -/
def tryFromDeviceMessageType (value : ButtplugDeviceMessageType) :
    Except ButtplugMessageError ButtplugCurrentSpecDeviceMessageType :=
  match value with
  | .VibrateCmd => .ok .VibrateCmd
  | .LinearCmd => .ok .LinearCmd
  | .RotateCmd => .ok .RotateCmd
  | .StopDeviceCmd => .ok .StopDeviceCmd
  | .RawWriteCmd => .ok .RawWriteCmd
  | .RawReadCmd => .ok .RawReadCmd
  | .RawSubscribeCmd => .ok .RawSubscribeCmd
  | .RawUnsubscribeCmd => .ok .RawUnsubscribeCmd
  | .BatteryLevelCmd => .ok .BatteryLevelCmd
  | .RSSILevelCmd => .ok .RSSILevelCmd
  | _ => .error (.MessageConversionError
      "Device message deprecated, does not exist in current version of protocol.")

/-- Rust `From<ButtplugCurrentSpecDeviceMessageType> for ButtplugDeviceMessageType`
(messages/mod.rs lines 288-311): total injection back into the full enum. -/
def fromCurrentSpecDeviceMessageType (value : ButtplugCurrentSpecDeviceMessageType) :
    ButtplugDeviceMessageType :=
  match value with
  | .VibrateCmd => .VibrateCmd
  | .LinearCmd => .LinearCmd
  | .RotateCmd => .RotateCmd
  | .StopDeviceCmd => .StopDeviceCmd
  | .RawWriteCmd => .RawWriteCmd
  | .RawReadCmd => .RawReadCmd
  | .RawSubscribeCmd => .RawSubscribeCmd
  | .RawUnsubscribeCmd => .RawUnsubscribeCmd
  | .BatteryLevelCmd => .BatteryLevelCmd
  | .RSSILevelCmd => .RSSILevelCmd

namespace messages

/-- Modelled from the spec: the individual message struct files
(ok.rs, error.rs, ...) are not under src/; per §3 every protocol message
carries an unsigned 32-bit id, which is all the claims here inspect.
Payload fields beyond the id are irrelevant to variant-level conversion. -/
structure Ok where
  id : Nat
  deriving Repr, DecidableEq

/-- Modelled from the spec: canonical Error message (error.rs not under src/). -/
structure Error where
  id : Nat
  deriving Repr, DecidableEq

/-- Modelled from the spec: V0 projection of Error (error.rs not under src/). -/
structure ErrorV0 where
  id : Nat
  deriving Repr, DecidableEq

/-- Modelled from the spec: Test message (test.rs not under src/). -/
structure Test where
  id : Nat
  deriving Repr, DecidableEq

/-- Modelled from the spec: Log message (log.rs not under src/). -/
structure Log where
  id : Nat
  deriving Repr, DecidableEq

/-- Modelled from the spec: canonical ServerInfo (server_info.rs not under src/). -/
structure ServerInfo where
  id : Nat
  deriving Repr, DecidableEq

/-- Modelled from the spec: V0 projection of ServerInfo. -/
structure ServerInfoV0 where
  id : Nat
  deriving Repr, DecidableEq

/-- Modelled from the spec: canonical DeviceList (device_list.rs not under src/). -/
structure DeviceList where
  id : Nat
  deriving Repr, DecidableEq

/-- Modelled from the spec: V0 projection of DeviceList. -/
structure DeviceListV0 where
  id : Nat
  deriving Repr, DecidableEq

/-- Modelled from the spec: V1 projection of DeviceList. -/
structure DeviceListV1 where
  id : Nat
  deriving Repr, DecidableEq

/-- Modelled from the spec: canonical DeviceAdded (device_added.rs not under src/). -/
structure DeviceAdded where
  id : Nat
  deriving Repr, DecidableEq

/-- Modelled from the spec: V0 projection of DeviceAdded. -/
structure DeviceAddedV0 where
  id : Nat
  deriving Repr, DecidableEq

/-- Modelled from the spec: V1 projection of DeviceAdded. -/
structure DeviceAddedV1 where
  id : Nat
  deriving Repr, DecidableEq

/-- Modelled from the spec: DeviceRemoved message. -/
structure DeviceRemoved where
  id : Nat
  deriving Repr, DecidableEq

/-- Modelled from the spec: ScanningFinished message. -/
structure ScanningFinished where
  id : Nat
  deriving Repr, DecidableEq

/-- Modelled from the spec: RawReading message (raw_reading.rs not under src/). -/
structure RawReading where
  id : Nat
  deriving Repr, DecidableEq

/-- Modelled from the spec: BatteryLevelReading message. -/
structure BatteryLevelReading where
  id : Nat
  deriving Repr, DecidableEq

/-- Modelled from the spec: RSSILevelReading message. -/
structure RSSILevelReading where
  id : Nat
  deriving Repr, DecidableEq

/-- Modelled from the spec: `From<Error> for ErrorV0` — the per-version
projection "drops or synthesizes fields" (§4.1) and echoes the id. -/
def ErrorV0.from_error (m : Error) : ErrorV0 := ⟨m.id⟩

/-- Modelled from the spec: `From<ServerInfo> for ServerInfoV0`. -/
def ServerInfoV0.from_server_info (m : ServerInfo) : ServerInfoV0 := ⟨m.id⟩

/-- Modelled from the spec: `From<DeviceList> for DeviceListV0`. -/
def DeviceListV0.from_device_list (m : DeviceList) : DeviceListV0 := ⟨m.id⟩

/-- Modelled from the spec: `From<DeviceList> for DeviceListV1`. -/
def DeviceListV1.from_device_list (m : DeviceList) : DeviceListV1 := ⟨m.id⟩

/-- Modelled from the spec: `From<DeviceAdded> for DeviceAddedV0`. -/
def DeviceAddedV0.from_device_added (m : DeviceAdded) : DeviceAddedV0 := ⟨m.id⟩

/-- Modelled from the spec: `From<DeviceAdded> for DeviceAddedV1`. -/
def DeviceAddedV1.from_device_added (m : DeviceAdded) : DeviceAddedV1 := ⟨m.id⟩

end messages

/-- Rust `ButtplugServerMessage` (messages/mod.rs lines 372-390): every possible
server-to-client message, canonical (latest-version) forms. -/
inductive ButtplugServerMessage where
  | Ok (msg : messages.Ok)
  | Error (msg : messages.Error)
  | Test (msg : messages.Test)
  | Log (msg : messages.Log)
  | ServerInfo (msg : messages.ServerInfo)
  | DeviceList (msg : messages.DeviceList)
  | DeviceAdded (msg : messages.DeviceAdded)
  | DeviceRemoved (msg : messages.DeviceRemoved)
  | ScanningFinished (msg : messages.ScanningFinished)
  | RawReading (msg : messages.RawReading)
  | BatteryLevelReading (msg : messages.BatteryLevelReading)
  | RSSILevelReading (msg : messages.RSSILevelReading)
  deriving Repr, DecidableEq

/-- The variant tags of `ButtplugServerMessage`, used to state which variants
survive down-conversion. -/
inductive ServerMessageVariant where
  | Ok
  | Error
  | Test
  | Log
  | ServerInfo
  | DeviceList
  | DeviceAdded
  | DeviceRemoved
  | ScanningFinished
  | RawReading
  | BatteryLevelReading
  | RSSILevelReading
  deriving Repr, DecidableEq

/-- Tag of a canonical server message. -/
def ButtplugServerMessage.variant : ButtplugServerMessage → ServerMessageVariant
  | .Ok _ => .Ok
  | .Error _ => .Error
  | .Test _ => .Test
  | .Log _ => .Log
  | .ServerInfo _ => .ServerInfo
  | .DeviceList _ => .DeviceList
  | .DeviceAdded _ => .DeviceAdded
  | .DeviceRemoved _ => .DeviceRemoved
  | .ScanningFinished _ => .ScanningFinished
  | .RawReading _ => .RawReading
  | .BatteryLevelReading _ => .BatteryLevelReading
  | .RSSILevelReading _ => .RSSILevelReading

/-- Variant-level stand-in for Rust `format!("\x7b:?\x7d", msg)` in the
VersionError payload: the claims only inspect the error constructor. -/
def ButtplugServerMessage.debugName (m : ButtplugServerMessage) : String :=
  match m with
  | .Ok _ => "Ok"
  | .Error _ => "Error"
  | .Test _ => "Test"
  | .Log _ => "Log"
  | .ServerInfo _ => "ServerInfo"
  | .DeviceList _ => "DeviceList"
  | .DeviceAdded _ => "DeviceAdded"
  | .DeviceRemoved _ => "DeviceRemoved"
  | .ScanningFinished _ => "ScanningFinished"
  | .RawReading _ => "RawReading"
  | .BatteryLevelReading _ => "BatteryLevelReading"
  | .RSSILevelReading _ => "RSSILevelReading"

/-- Rust `ButtplugSpecV1ServerMessage` (messages/mod.rs lines 501-513). -/
inductive ButtplugSpecV1ServerMessage where
  | Ok (msg : messages.Ok)
  | Error (msg : messages.ErrorV0)
  | Log (msg : messages.Log)
  | ServerInfo (msg : messages.ServerInfoV0)
  | DeviceList (msg : messages.DeviceListV1)
  | DeviceAdded (msg : messages.DeviceAddedV1)
  | DeviceRemoved (msg : messages.DeviceRemoved)
  | ScanningFinished (msg : messages.ScanningFinished)
  deriving Repr, DecidableEq

/-- Rust `ButtplugSpecV0ServerMessage` (messages/mod.rs lines 586-598). -/
inductive ButtplugSpecV0ServerMessage where
  | Ok (msg : messages.Ok)
  | Error (msg : messages.ErrorV0)
  | Log (msg : messages.Log)
  | ServerInfo (msg : messages.ServerInfoV0)
  | DeviceList (msg : messages.DeviceListV0)
  | DeviceAdded (msg : messages.DeviceAddedV0)
  | DeviceRemoved (msg : messages.DeviceRemoved)
  | ScanningFinished (msg : messages.ScanningFinished)
  deriving Repr, DecidableEq

/-- Rust `TryFrom<ButtplugServerMessage> for ButtplugSpecV1ServerMessage`
(messages/mod.rs lines 518-547): the eight V1 variants convert (with
per-version payload projection), everything else is a `VersionError`. -/
def tryFromServerMessageV1 (msg : ButtplugServerMessage) :
    Except ButtplugMessageError ButtplugSpecV1ServerMessage :=
  match msg with
  | .Ok m => .ok (.Ok m)
  | .Error m => .ok (.Error (messages.ErrorV0.from_error m))
  | .Log m => .ok (.Log m)
  | .ServerInfo m => .ok (.ServerInfo (messages.ServerInfoV0.from_server_info m))
  | .DeviceList m => .ok (.DeviceList (messages.DeviceListV1.from_device_list m))
  | .DeviceAdded m => .ok (.DeviceAdded (messages.DeviceAddedV1.from_device_added m))
  | .DeviceRemoved m => .ok (.DeviceRemoved m)
  | .ScanningFinished m => .ok (.ScanningFinished m)
  | m => .error (.VersionError "ButtplugServerMessage" m.debugName
      "ButtplugSpecV1ServerMessage")

/-- Rust `TryFrom<ButtplugServerMessage> for ButtplugSpecV0ServerMessage`
(messages/mod.rs lines 603-632). -/
def tryFromServerMessageV0 (msg : ButtplugServerMessage) :
    Except ButtplugMessageError ButtplugSpecV0ServerMessage :=
  match msg with
  | .Ok m => .ok (.Ok m)
  | .Error m => .ok (.Error (messages.ErrorV0.from_error m))
  | .Log m => .ok (.Log m)
  | .ServerInfo m => .ok (.ServerInfo (messages.ServerInfoV0.from_server_info m))
  | .DeviceList m => .ok (.DeviceList (messages.DeviceListV0.from_device_list m))
  | .DeviceAdded m => .ok (.DeviceAdded (messages.DeviceAddedV0.from_device_added m))
  | .DeviceRemoved m => .ok (.DeviceRemoved m)
  | .ScanningFinished m => .ok (.ScanningFinished m)
  | m => .error (.VersionError "ButtplugServerMessage" m.debugName
      "ButtplugSpecV0ServerMessage")

/-- The variants of `ButtplugServerMessage` that exist in the V0 and V1
server-message enums. -/
def v0v1ServerVariants : List ServerMessageVariant :=
  [.Ok, .Error, .Log, .ServerInfo, .DeviceList, .DeviceAdded, .DeviceRemoved,
   .ScanningFinished]

/-- Modelled from the spec: `Endpoint` (device/mod.rs not under src/);
the glossary lists named bus channels Tx, Rx, Command. Only Tx is used by
the code under verification. -/
inductive Endpoint where
  | Tx
  | Rx
  | Command
  deriving Repr, DecidableEq

/-- Rust `DeviceWriteCmd` (device/mod.rs, interface level per §4.5):
`write_value(endpoint, bytes, write_with_response)`. -/
structure DeviceWriteCmd where
  endpoint : Endpoint
  data : List Nat
  write_with_response : Bool
  deriving Repr, DecidableEq

/-- Rust `cmds.windows(2).all(|w| w[0] == w[1])` from
lovehoney_desire.rs line 61: all adjacent pairs equal. -/
def allWindowPairsEq : List (Option Int) → Bool
  | a :: b :: rest => a == b && allWindowPairsEq (b :: rest)
  | _ => true

/-- The per-motor loop of `LovehoneyDesire::handle_vibrate_cmd`
(lovehoney_desire.rs lines 69-84): `i` starts at 1; each `Some(speed)`
entry produces one `[0xF3, i, speed as u8]` write on Tx; `None` entries
only advance `i`. -/
def lovehoneyPerMotorWrites : Nat → List (Option Int) → List DeviceWriteCmd
  | _, [] => []
  | i, none :: rest => lovehoneyPerMotorWrites (i + 1) rest
  | i, some speed :: rest =>
    ⟨Endpoint.Tx, [0xF3, i, speed.toNat % 256], false⟩ ::
      lovehoneyPerMotorWrites (i + 1) rest

/-- The write-emission of `LovehoneyDesire::handle_vibrate_cmd`
(lovehoney_desire.rs lines 46-85) as a function of the diff vector
returned by the GenericCommandManager: if `cmds[0].is_some()` and all
windows of 2 are equal, one set-both frame `[0xF3, 0, v]`; otherwise one
per-motor frame per `Some` entry. (On the device the vector is never
empty: its length is the feature count, 2.) -/
def lovehoneyVibrateWrites (cmds : List (Option Int)) : List DeviceWriteCmd :=
  match cmds with
  | [] => []
  | c0 :: _ =>
    if c0.isSome && allWindowPairsEq cmds then
      match c0 with
      | some v => [⟨Endpoint.Tx, [0xF3, 0, v.toNat % 256], false⟩]
      | none => []
    else
      lovehoneyPerMotorWrites 1 cmds

/-- Rust `VibrateSubcommand` (vibrate_cmd.rs, interface level per §3):
a feature index and a speed in [0.0, 1.0]. -/
structure VibrateSubcommand where
  index : Nat
  speed : ℚ
  deriving Repr, DecidableEq

/-- Rust `VibrateCmd` (vibrate_cmd.rs, interface level per §3). -/
structure VibrateCmd where
  id : Nat
  device_index : Nat
  speeds : List VibrateSubcommand
  deriving Repr, DecidableEq

/-- Modelled from the spec: the commanded-state cache of the
`GenericCommandManager` (generic_command_manager.rs is not under src/).
Per §3 and §4.3: one step count per vibration feature and one ordered
vector of last commanded (quantized) sub-values, "unset" = none. -/
structure GenericCommandManager where
  vibration_step_counts : List Nat
  vibrations : List (Option Int)
  deriving Repr, DecidableEq

/-- Modelled from the spec (§4.3 step 2): quantize a command by multiplying
by the feature step count and rounding to an integer. -/
def quantizeSpeed (speed : ℚ) (step_count : Nat) : Int :=
  round (speed * step_count)

/-- Modelled from the spec (§4.3 step 1): each sub-index below the feature
count, each speed in [0.0, 1.0], no duplicate sub-indices. -/
def validVibrateCmd (msg : VibrateCmd) (feature_count : Nat) : Prop :=
  (∀ s ∈ msg.speeds, s.index < feature_count ∧ 0 ≤ s.speed ∧ s.speed ≤ 1) ∧
  (msg.speeds.map VibrateSubcommand.index).Nodup

instance (msg : VibrateCmd) (n : Nat) : Decidable (validVibrateCmd msg n) := by
  unfold validVibrateCmd; infer_instance

/-- Modelled from the spec (§4.3 steps 2-4), per feature `i`: if the command
addresses `i`, quantize and diff against the stored value — unchanged gives
`none`, changed gives `some q` — and the stored value becomes `some q`;
if unaddressed, output `none` and keep the stored value. Returns
(diff entry, new stored entry). -/
def vibrationDiffEntry (step_counts : List Nat) (stored : List (Option Int))
    (msg : VibrateCmd) (i : Nat) : Option Int × Option Int :=
  match msg.speeds.find? (fun s => s.index == i) with
  | some s =>
    let q := quantizeSpeed s.speed (step_counts.getD i 0)
    if stored.getD i none == some q then (none, some q) else (some q, some q)
  | none => (none, stored.getD i none)

/-- Modelled from the spec: `GenericCommandManager::update_vibration`
(generic_command_manager.rs is not under src/). Per §4.3: validate, quantize,
diff against the stored commanded-state vector, update the stored state;
if every diff entry is `None` and `sent_all_once` holds return `Ok(None)`,
otherwise `Ok(Some(vec))`. -/
def update_vibration (gcm : GenericCommandManager) (msg : VibrateCmd)
    (sent_all_once : Bool) :
    Except ButtplugMessageError (Option (List (Option Int)) × GenericCommandManager) :=
  if validVibrateCmd msg gcm.vibrations.length then
    let pairs := (List.range gcm.vibrations.length).map
      (vibrationDiffEntry gcm.vibration_step_counts gcm.vibrations msg)
    let diff := pairs.map Prod.fst
    let gcmNew := GenericCommandManager.mk gcm.vibration_step_counts
      (pairs.map Prod.snd)
    if diff.all Option.isNone && sent_all_once then
      .ok (none, gcmNew)
    else
      .ok (some diff, gcmNew)
  else
    .error (.InvalidMessageContents "Invalid VibrateCmd")

/-- Rust `LovehoneyDesire::handle_vibrate_cmd` (lovehoney_desire.rs lines 37-89)
at the state level: run `update_vibration(&message, false)`, propagate its
error; on `None` emit no writes; on `Some(cmds)` emit the Lovehoney frames.
Returns the written frames, in order, with the updated manager state. -/
def handle_vibrate_cmd (gcm : GenericCommandManager) (msg : VibrateCmd) :
    Except ButtplugMessageError (List DeviceWriteCmd × GenericCommandManager) :=
  match update_vibration gcm msg false with
  | .error e => .error e
  | .ok (none, g) => .ok ([], g)
  | .ok (some cmds, g) => .ok (lovehoneyVibrateWrites cmds, g)

namespace messages

/-- Modelled from the spec: Ping message (ping.rs not under src/). -/
structure Ping where
  id : Nat
  deriving Repr, DecidableEq

/-- Modelled from the spec: RequestLog message. -/
structure RequestLog where
  id : Nat
  deriving Repr, DecidableEq

/-- Modelled from the spec: RequestServerInfo message. -/
structure RequestServerInfo where
  id : Nat
  deriving Repr, DecidableEq

/-- Modelled from the spec: StartScanning message. -/
structure StartScanning where
  id : Nat
  deriving Repr, DecidableEq

/-- Modelled from the spec: StopScanning message. -/
structure StopScanning where
  id : Nat
  deriving Repr, DecidableEq

/-- Modelled from the spec: RequestDeviceList message. -/
structure RequestDeviceList where
  id : Nat
  deriving Repr, DecidableEq

/-- Modelled from the spec: StopAllDevices message. -/
structure StopAllDevices where
  id : Nat
  deriving Repr, DecidableEq

/-- Modelled from the spec: LinearCmd message (device-targeted, carries
`device_index` per §4.1). -/
structure LinearCmd where
  id : Nat
  device_index : Nat
  deriving Repr, DecidableEq

/-- Modelled from the spec: RotateCmd message. -/
structure RotateCmd where
  id : Nat
  device_index : Nat
  deriving Repr, DecidableEq

/-- Modelled from the spec: RawWriteCmd message. -/
structure RawWriteCmd where
  id : Nat
  device_index : Nat
  deriving Repr, DecidableEq

/-- Modelled from the spec: RawReadCmd message. -/
structure RawReadCmd where
  id : Nat
  device_index : Nat
  deriving Repr, DecidableEq

/-- Modelled from the spec: StopDeviceCmd message. -/
structure StopDeviceCmd where
  id : Nat
  device_index : Nat
  deriving Repr, DecidableEq

/-- Modelled from the spec: RawSubscribeCmd message. -/
structure RawSubscribeCmd where
  id : Nat
  device_index : Nat
  deriving Repr, DecidableEq

/-- Modelled from the spec: RawUnsubscribeCmd message. -/
structure RawUnsubscribeCmd where
  id : Nat
  device_index : Nat
  deriving Repr, DecidableEq

/-- Modelled from the spec: BatteryLevelCmd message. -/
structure BatteryLevelCmd where
  id : Nat
  device_index : Nat
  deriving Repr, DecidableEq

/-- Modelled from the spec: RSSILevelCmd message. -/
structure RSSILevelCmd where
  id : Nat
  device_index : Nat
  deriving Repr, DecidableEq

/-- Modelled from the spec: deprecated SingleMotorVibrateCmd message. -/
structure SingleMotorVibrateCmd where
  id : Nat
  device_index : Nat
  deriving Repr, DecidableEq

/-- Modelled from the spec: deprecated FleshlightLaunchFW12Cmd message. -/
structure FleshlightLaunchFW12Cmd where
  id : Nat
  device_index : Nat
  deriving Repr, DecidableEq

/-- Modelled from the spec: deprecated LovenseCmd message. -/
structure LovenseCmd where
  id : Nat
  device_index : Nat
  deriving Repr, DecidableEq

/-- Modelled from the spec: deprecated KiirooCmd message. -/
structure KiirooCmd where
  id : Nat
  device_index : Nat
  deriving Repr, DecidableEq

/-- Modelled from the spec: deprecated VorzeA10CycloneCmd message. -/
structure VorzeA10CycloneCmd where
  id : Nat
  device_index : Nat
  deriving Repr, DecidableEq

/-- Modelled from the spec: `messages::Ok::default()` — the default message
id is the placeholder request id 1 (non-zero per §3; responses get the real
request id stamped by the server). -/
def Ok.default : Ok := ⟨1⟩

end messages

/-- Rust `ButtplugClientMessage` (messages/mod.rs lines 325-358): every possible
client-to-server message, canonical forms, in declaration order. -/
inductive ButtplugClientMessage where
  | Ping (msg : messages.Ping)
  | RequestLog (msg : messages.RequestLog)
  | RequestServerInfo (msg : messages.RequestServerInfo)
  | StartScanning (msg : messages.StartScanning)
  | StopScanning (msg : messages.StopScanning)
  | RequestDeviceList (msg : messages.RequestDeviceList)
  | StopAllDevices (msg : messages.StopAllDevices)
  | VibrateCmd (msg : VibrateCmd)
  | LinearCmd (msg : messages.LinearCmd)
  | RotateCmd (msg : messages.RotateCmd)
  | RawWriteCmd (msg : messages.RawWriteCmd)
  | RawReadCmd (msg : messages.RawReadCmd)
  | StopDeviceCmd (msg : messages.StopDeviceCmd)
  | RawSubscribeCmd (msg : messages.RawSubscribeCmd)
  | RawUnsubscribeCmd (msg : messages.RawUnsubscribeCmd)
  | BatteryLevelCmd (msg : messages.BatteryLevelCmd)
  | RSSILevelCmd (msg : messages.RSSILevelCmd)
  | SingleMotorVibrateCmd (msg : messages.SingleMotorVibrateCmd)
  | FleshlightLaunchFW12Cmd (msg : messages.FleshlightLaunchFW12Cmd)
  | LovenseCmd (msg : messages.LovenseCmd)
  | KiirooCmd (msg : messages.KiirooCmd)
  | VorzeA10CycloneCmd (msg : messages.VorzeA10CycloneCmd)
  deriving Repr, DecidableEq

/-- Variant-level stand-in for Rust `format!("\x7b:?\x7d", msg)` on a client
message, used in the `UnexpectedMessageType` payload. -/
def ButtplugClientMessage.debugName : ButtplugClientMessage → String
  | .Ping _ => "Ping"
  | .RequestLog _ => "RequestLog"
  | .RequestServerInfo _ => "RequestServerInfo"
  | .StartScanning _ => "StartScanning"
  | .StopScanning _ => "StopScanning"
  | .RequestDeviceList _ => "RequestDeviceList"
  | .StopAllDevices _ => "StopAllDevices"
  | .VibrateCmd _ => "VibrateCmd"
  | .LinearCmd _ => "LinearCmd"
  | .RotateCmd _ => "RotateCmd"
  | .RawWriteCmd _ => "RawWriteCmd"
  | .RawReadCmd _ => "RawReadCmd"
  | .StopDeviceCmd _ => "StopDeviceCmd"
  | .RawSubscribeCmd _ => "RawSubscribeCmd"
  | .RawUnsubscribeCmd _ => "RawUnsubscribeCmd"
  | .BatteryLevelCmd _ => "BatteryLevelCmd"
  | .RSSILevelCmd _ => "RSSILevelCmd"
  | .SingleMotorVibrateCmd _ => "SingleMotorVibrateCmd"
  | .FleshlightLaunchFW12Cmd _ => "FleshlightLaunchFW12Cmd"
  | .LovenseCmd _ => "LovenseCmd"
  | .KiirooCmd _ => "KiirooCmd"
  | .VorzeA10CycloneCmd _ => "VorzeA10CycloneCmd"

/-- Rust `ButtplugDeviceCommandMessageUnion` (messages/mod.rs lines 664-680), in
declaration order. Note: no LovenseCmd — "it was never implemented anywhere". -/
inductive ButtplugDeviceCommandMessageUnion where
  | FleshlightLaunchFW12Cmd (msg : messages.FleshlightLaunchFW12Cmd)
  | SingleMotorVibrateCmd (msg : messages.SingleMotorVibrateCmd)
  | VorzeA10CycloneCmd (msg : messages.VorzeA10CycloneCmd)
  | KiirooCmd (msg : messages.KiirooCmd)
  | VibrateCmd (msg : VibrateCmd)
  | LinearCmd (msg : messages.LinearCmd)
  | RotateCmd (msg : messages.RotateCmd)
  | RawWriteCmd (msg : messages.RawWriteCmd)
  | RawReadCmd (msg : messages.RawReadCmd)
  | StopDeviceCmd (msg : messages.StopDeviceCmd)
  | RawSubscribeCmd (msg : messages.RawSubscribeCmd)
  | RawUnsubscribeCmd (msg : messages.RawUnsubscribeCmd)
  | BatteryLevelCmd (msg : messages.BatteryLevelCmd)
  | RSSILevelCmd (msg : messages.RSSILevelCmd)
  deriving Repr, DecidableEq

/-- The `ButtplugDeviceMessage::device_index` accessor on the device-command
union (derive on each message struct; every variant carries one). -/
def ButtplugDeviceCommandMessageUnion.device_index :
    ButtplugDeviceCommandMessageUnion → Nat
  | .FleshlightLaunchFW12Cmd m => m.device_index
  | .SingleMotorVibrateCmd m => m.device_index
  | .VorzeA10CycloneCmd m => m.device_index
  | .KiirooCmd m => m.device_index
  | .VibrateCmd m => m.device_index
  | .LinearCmd m => m.device_index
  | .RotateCmd m => m.device_index
  | .RawWriteCmd m => m.device_index
  | .RawReadCmd m => m.device_index
  | .StopDeviceCmd m => m.device_index
  | .RawSubscribeCmd m => m.device_index
  | .RawUnsubscribeCmd m => m.device_index
  | .BatteryLevelCmd m => m.device_index
  | .RSSILevelCmd m => m.device_index

/-- Rust `ButtplugDeviceManagerMessageUnion` (messages/mod.rs lines 646-651). -/
inductive ButtplugDeviceManagerMessageUnion where
  | RequestDeviceList (msg : messages.RequestDeviceList)
  | StopAllDevices (msg : messages.StopAllDevices)
  | StartScanning (msg : messages.StartScanning)
  | StopScanning (msg : messages.StopScanning)
  deriving Repr, DecidableEq

/-- The derive-generated `TryFrom<ButtplugClientMessage> for
ButtplugDeviceCommandMessageUnion` (TryFromButtplugClientMessage derive,
buttplug_derive crate): converts same-named variants, fails on the rest.
The error payload is discarded by `DeviceManager::parse_message`
(`Err(_)`), so failure is modelled as `none`. -/
def tryFromClientMessageToDeviceCommand (msg : ButtplugClientMessage) :
    Option ButtplugDeviceCommandMessageUnion :=
  match msg with
  | .FleshlightLaunchFW12Cmd m => some (.FleshlightLaunchFW12Cmd m)
  | .SingleMotorVibrateCmd m => some (.SingleMotorVibrateCmd m)
  | .VorzeA10CycloneCmd m => some (.VorzeA10CycloneCmd m)
  | .KiirooCmd m => some (.KiirooCmd m)
  | .VibrateCmd m => some (.VibrateCmd m)
  | .LinearCmd m => some (.LinearCmd m)
  | .RotateCmd m => some (.RotateCmd m)
  | .RawWriteCmd m => some (.RawWriteCmd m)
  | .RawReadCmd m => some (.RawReadCmd m)
  | .StopDeviceCmd m => some (.StopDeviceCmd m)
  | .RawSubscribeCmd m => some (.RawSubscribeCmd m)
  | .RawUnsubscribeCmd m => some (.RawUnsubscribeCmd m)
  | .BatteryLevelCmd m => some (.BatteryLevelCmd m)
  | .RSSILevelCmd m => some (.RSSILevelCmd m)
  | _ => none

/-- The derive-generated `TryFrom<ButtplugClientMessage> for
ButtplugDeviceManagerMessageUnion`: converts same-named variants. -/
def tryFromClientMessageToDeviceManagerMessage (msg : ButtplugClientMessage) :
    Option ButtplugDeviceManagerMessageUnion :=
  match msg with
  | .RequestDeviceList m => some (.RequestDeviceList m)
  | .StopAllDevices m => some (.StopAllDevices m)
  | .StartScanning m => some (.StartScanning m)
  | .StopScanning m => some (.StopScanning m)
  | _ => none

/-- Rust `ButtplugDeviceError` (core/errors.rs, interface level): the device-error
variants constructed by the code under verification. -/
inductive ButtplugDeviceError where
  | DeviceNotAvailable (idx : Nat)
  | DeviceScanningAlreadyStarted
  | DeviceScanningAlreadyStopped
  | DeviceNotConnected (msg : String)
  | DeviceCommunicationError (msg : String)
  | DeviceConnectionError (msg : String)
  deriving Repr, DecidableEq

/-- Rust `ButtplugUnknownError` (core/errors.rs, interface level). -/
inductive ButtplugUnknownError where
  | NoDeviceCommManagers
  | UnexpectedType (msg : String)
  deriving Repr, DecidableEq

/-- Rust `ButtplugError` (core/errors.rs, interface level): the composite error
the server returns; each sub-error converts into it with `.into()`. -/
inductive ButtplugError where
  | Message (e : ButtplugMessageError)
  | Device (e : ButtplugDeviceError)
  | Unknown (e : ButtplugUnknownError)
  deriving Repr, DecidableEq

/-- The value yielded by a `ButtplugServerResultFuture`: a canonical server
message or a `ButtplugError`. -/
def ServerResult : Type := Except ButtplugError ButtplugServerMessage

/-- Rust `DeviceCommunicationEvent` (comm_managers mod, not under src/; interface
per §4.6) — the variants sent by `DeviceManager` itself. -/
inductive DeviceCommunicationEvent where
  | ScanningStarted
  | ScanningFinished
  | DeviceManagerAdded
  deriving Repr, DecidableEq

/-- Rust `ButtplugDevice` (device/mod.rs, interface level per §4.4): for routing
purposes a registered device is its `parse_message` behaviour on
device-command messages. -/
structure ButtplugDevice where
  parse_message : ButtplugDeviceCommandMessageUnion → ServerResult

/-- Rust `DeviceCommunicationManager` (comm_managers mod, interface per §4.6):
a name, an atomic scanning-status flag, and a `start_scanning` whose result
the DeviceManager discards (`join_all` drops per-manager results). -/
structure DeviceCommunicationManager where
  name : String
  scanning_status : Bool
  start_scanning_result : Bool

/-- The `DeviceManager` state (device_manager.rs lines 75-83) as seen by the
claims: the comm-managers map, the devices map (u32 index to device), and
whether the event-loop channel is still alive (a channel send succeeds iff
the event loop has not shut down). -/
structure DeviceManager where
  comm_managers : List DeviceCommunicationManager
  devices : List (Nat × ButtplugDevice)
  event_loop_alive : Bool

/-- Rust `DeviceManager::stop_all_devices` (device_manager.rs lines 197-211):
dispatch `StopDeviceCmd::new(1)` to every registered device, join all,
discard per-device results, return `Ok::default()`. -/
def DeviceManager.stop_all_devices (dm : DeviceManager) : ServerResult :=
  let _results := dm.devices.map
    (fun dev => dev.2.parse_message (.StopDeviceCmd ⟨1, 1⟩))
  .ok (.Ok messages.Ok.default)

/-- Outcome of `DeviceManager::start_scanning`: the returned result, the
names of the managers whose `start_scanning` was invoked, and the events
whose send to the event loop was attempted, in order. -/
structure StartScanningOutcome where
  result : ServerResult
  started : List String
  events : List DeviceCommunicationEvent

/-- Rust `DeviceManager::start_scanning` (device_manager.rs lines 121-166):
error if the comm-managers map is empty; error if any manager is already
scanning; otherwise invoke `start_scanning` on every manager (results
discarded by `join_all`), then send `ScanningStarted` and — unless the
first send already failed (the `||` short-circuits) — `ScanningFinished`
to the event loop, and return `Ok` even when the sends fail. -/
def DeviceManager.start_scanning (dm : DeviceManager) : StartScanningOutcome :=
  if dm.comm_managers.isEmpty then
    ⟨.error (.Unknown .NoDeviceCommManagers), [], []⟩
  else if dm.comm_managers.any DeviceCommunicationManager.scanning_status then
    ⟨.error (.Device .DeviceScanningAlreadyStarted), [], []⟩
  else
    ⟨.ok (.Ok messages.Ok.default),
     dm.comm_managers.map DeviceCommunicationManager.name,
     .ScanningStarted ::
       (if dm.event_loop_alive then [.ScanningFinished] else [])⟩

/-- Rust `DeviceManager::stop_scanning` (device_manager.rs lines 168-195):
error if the comm-managers map is empty; error if no manager is currently
scanning; otherwise invoke `stop_scanning` on every manager (results
discarded) and return `Ok`. -/
def DeviceManager.stop_scanning (dm : DeviceManager) : ServerResult :=
  if dm.comm_managers.isEmpty then
    .error (.Unknown .NoDeviceCommManagers)
  else if dm.comm_managers.any DeviceCommunicationManager.scanning_status then
    .ok (.Ok messages.Ok.default)
  else
    .error (.Device .DeviceScanningAlreadyStopped)

/-- Rust `DeviceManager::parse_device_message` (device_manager.rs lines 213-225):
look the device up by `device_index()`; absent gives
`DeviceNotAvailable(index)`, present invokes the device. -/
def DeviceManager.parse_device_message (dm : DeviceManager)
    (device_msg : ButtplugDeviceCommandMessageUnion) : ServerResult :=
  match dm.devices.lookup device_msg.device_index with
  | some device => device.parse_message device_msg
  | none => .error (.Device (.DeviceNotAvailable device_msg.device_index))

/-- Rust `DeviceManager::parse_device_manager_message` (device_manager.rs lines
227-249). The `RequestDeviceList` reply is built from the devices map and
echoes the request id; its entries are beyond the routing claims here. -/
def DeviceManager.parse_device_manager_message (dm : DeviceManager)
    (manager_msg : ButtplugDeviceManagerMessageUnion) : ServerResult :=
  match manager_msg with
  | .RequestDeviceList m => .ok (.DeviceList ⟨m.id⟩)
  | .StopAllDevices _ => dm.stop_all_devices
  | .StartScanning _ => dm.start_scanning.result
  | .StopScanning _ => dm.stop_scanning

/-- Rust `DeviceManager::parse_message` (device_manager.rs lines 251-261):
try the device-command union first, then the device-manager union, then
fail with `UnexpectedMessageType`. -/
def DeviceManager.parse_message (dm : DeviceManager)
    (msg : ButtplugClientMessage) : ServerResult :=
  match tryFromClientMessageToDeviceCommand msg with
  | some device_msg => dm.parse_device_message device_msg
  | none =>
    match tryFromClientMessageToDeviceManagerMessage msg with
    | some manager_msg => dm.parse_device_manager_message manager_msg
    | none => .error (.Message (.UnexpectedMessageType msg.debugName))

/-- Modelled from the spec: `DeviceReadCmd` (device/mod.rs not under src/);
§4.5 gives `read_value(endpoint)`. -/
structure DeviceReadCmd where
  endpoint : Endpoint
  deriving Repr, DecidableEq

/-- Evaluation outcome of a Rust function that may panic. -/
inductive RustOutcome (α : Type) where
  | ok (a : α)
  | panics (msg : String)
  deriving Repr, DecidableEq

/-- Rust `BtlePlugDeviceImpl` (btleplug_device_impl.rs lines 137-143): the fields
`connected` and `read_value` can consult. The thread sender and event
receiver are bus handles with no connection-state content. -/
structure BtlePlugDeviceImpl where
  name : String
  address : String
  endpoints : List Endpoint
  deriving Repr, DecidableEq

/-- Rust `BtlePlugDeviceImpl::connected` (btleplug_device_impl.rs lines 211-215):
returns `true` with no inspection of any state. -/
def BtlePlugDeviceImpl.connected (_self : BtlePlugDeviceImpl) : Bool :=
  true

/-- Rust `BtlePlugDeviceImpl::read_value` (btleplug_device_impl.rs lines 235-241):
the body is `unimplemented!("...")`, which panics unconditionally. -/
def BtlePlugDeviceImpl.read_value (_self : BtlePlugDeviceImpl)
    (_msg : DeviceReadCmd) :
    RustOutcome (Except ButtplugError messages.RawReading) :=
  .panics "not implemented"

/-- C6: for every u32 id and command value, `is_system_id id` succeeds exactly
when `id == 0`, `is_not_system_id id` succeeds exactly when `id != 0`, and
`is_in_command_range value msg` succeeds exactly when `0.0 <= value <= 1.0`
(closed interval); every failing case is an `InvalidMessageContents` error. -/
theorem C6_default_validators :
    (∀ id : Nat, is_system_id id = .ok () ↔ id = 0)
  ∧ (∀ id : Nat, is_not_system_id id = .ok () ↔ id ≠ 0)
  ∧ (∀ (v : ℚ) (m : String),
      is_in_command_range v m = .ok () ↔ (0 ≤ v ∧ v ≤ 1))
  ∧ (∀ id : Nat, id ≠ 0 →
      ∃ s, is_system_id id = .error (.InvalidMessageContents s))
  ∧ (∀ id : Nat, id = 0 →
      ∃ s, is_not_system_id id = .error (.InvalidMessageContents s))
  ∧ (∀ (v : ℚ) (m : String), ¬(0 ≤ v ∧ v ≤ 1) →
      is_in_command_range v m = .error (.InvalidMessageContents m)) := by
  refine ⟨fun id => ?_, fun id => ?_, fun v m => ?_, fun id h => ?_,
    fun id h => ?_, fun v m h => ?_⟩
  · by_cases h : id = 0 <;> simp [is_system_id, h]
  · by_cases h : id = 0 <;> simp [is_not_system_id, h]
  · by_cases h : 0 ≤ v ∧ v ≤ 1 <;> simp [is_in_command_range, h]
  · exact ⟨"Message should have id of 0, as it is a system message.",
      by simp [is_system_id, h]⟩
  · exact ⟨"Message should not have 0 for an Id. Id of 0 is reserved for system messages.",
      by simp [is_not_system_id, h]⟩
  · simp [is_in_command_range, h]

/-- Witness for C6 at concrete inputs. -/
theorem C6_default_validators_witness :
    is_system_id 0 = .ok ()
  ∧ is_not_system_id 3 = .ok ()
  ∧ is_in_command_range (1 / 2) "oops" = .ok ()
  ∧ (∃ s, is_system_id 5 = .error (.InvalidMessageContents s))
  ∧ is_in_command_range 2 "range" = .error (.InvalidMessageContents "range") := by
  refine ⟨(C6_default_validators.1 0).mpr rfl,
    (C6_default_validators.2.1 3).mpr (by decide),
    (C6_default_validators.2.2.1 (1 / 2) "oops").mpr (by norm_num),
    C6_default_validators.2.2.2.1 5 (by decide),
    C6_default_validators.2.2.2.2.2 2 "range" (by norm_num)⟩

/-- C7: on both `ButtplugDeviceMessageType` and
`ButtplugCurrentSpecDeviceMessageType`, the `Ord` implementation compares by
the lexicographic order of the variant names (so attribute-map keys sort
lexicographically by name), and this differs from the declaration order of
the variants. -/
theorem C7_ord_is_lexicographic :
    (∀ a b : ButtplugDeviceMessageType,
      a.cmp b = strLexCompare a.to_string.data b.to_string.data)
  ∧ (∀ a b : ButtplugCurrentSpecDeviceMessageType,
      a.cmp b = strLexCompare a.to_string.data b.to_string.data)
  ∧ (∃ a b : ButtplugDeviceMessageType,
      a.declIdx < b.declIdx ∧ a.cmp b = .gt)
  ∧ (∃ a b : ButtplugCurrentSpecDeviceMessageType,
      a.declIdx < b.declIdx ∧ a.cmp b = .gt) := by
  refine ⟨fun a b => rfl, fun a b => rfl,
    ⟨.VibrateCmd, .BatteryLevelCmd, by decide, by decide⟩,
    ⟨.VibrateCmd, .BatteryLevelCmd, by decide, by decide⟩⟩

/-- C10: `From` followed by `TryFrom` round-trips every
`ButtplugCurrentSpecDeviceMessageType`, and `TryFrom` on the full enum
succeeds exactly on the ten non-deprecated variants, giving a
`MessageConversionError` on each of the five deprecated ones. -/
theorem C10_device_message_type_roundtrip :
    (∀ v : ButtplugCurrentSpecDeviceMessageType,
      tryFromDeviceMessageType (fromCurrentSpecDeviceMessageType v) = .ok v)
  ∧ (∀ v : ButtplugDeviceMessageType,
      (tryFromDeviceMessageType v).isOk = true ↔
        ¬(v = .SingleMotorVibrateCmd ∨ v = .FleshlightLaunchFW12Cmd ∨
          v = .LovenseCmd ∨ v = .KiirooCmd ∨ v = .VorzeA10CycloneCmd))
  ∧ (∀ v : ButtplugDeviceMessageType,
      (v = .SingleMotorVibrateCmd ∨ v = .FleshlightLaunchFW12Cmd ∨
       v = .LovenseCmd ∨ v = .KiirooCmd ∨ v = .VorzeA10CycloneCmd) →
      tryFromDeviceMessageType v = .error (.MessageConversionError
        "Device message deprecated, does not exist in current version of protocol.")) := by
  refine ⟨fun v => by cases v <;> rfl, fun v => by cases v <;> decide,
    fun v h => ?_⟩
  rcases h with rfl | rfl | rfl | rfl | rfl <;> rfl

/-- Witness for C10 at concrete inputs. -/
theorem C10_device_message_type_roundtrip_witness :
    tryFromDeviceMessageType (fromCurrentSpecDeviceMessageType .RSSILevelCmd) =
      .ok .RSSILevelCmd
  ∧ (tryFromDeviceMessageType .VibrateCmd).isOk = true
  ∧ tryFromDeviceMessageType .LovenseCmd = .error (.MessageConversionError
      "Device message deprecated, does not exist in current version of protocol.") := by
  refine ⟨C10_device_message_type_roundtrip.1 .RSSILevelCmd,
    (C10_device_message_type_roundtrip.2.1 .VibrateCmd).mpr (by decide),
    C10_device_message_type_roundtrip.2.2 .LovenseCmd (by decide)⟩

/-- C9: `BtlePlugDeviceImpl::connected` returns `true` for every device value;
it consults no connection state at all, so the reported status never reflects
the actual bus state. -/
theorem C9_connected_always_true :
    ∀ d : BtlePlugDeviceImpl, d.connected = true :=
  fun _ => rfl

/-- C8: `BtlePlugDeviceImpl::read_value` panics (`unimplemented!`) on every
input instead of returning a future yielding a `RawReading` or a device
error — evaluating the code at any `DeviceReadCmd` hits the panic. -/
theorem C8_read_value_always_panics :
    ∀ (d : BtlePlugDeviceImpl) (msg : DeviceReadCmd),
      d.read_value msg = .panics "not implemented" :=
  fun _ _ => rfl

/-- C1: down-conversion of a canonical `ButtplugServerMessage` to wire
version V0 or V1 succeeds exactly when its variant exists in that version
(Ok, Error, Log, ServerInfo, DeviceList, DeviceAdded, DeviceRemoved,
ScanningFinished), and on every other variant (Test, RawReading,
BatteryLevelReading, RSSILevelReading) it is a `VersionError`. -/
theorem C1_server_message_down_conversion :
    ∀ m : ButtplugServerMessage,
      ((tryFromServerMessageV0 m).isOk = true ↔ m.variant ∈ v0v1ServerVariants)
    ∧ ((tryFromServerMessageV1 m).isOk = true ↔ m.variant ∈ v0v1ServerVariants)
    ∧ (m.variant ∉ v0v1ServerVariants →
        tryFromServerMessageV0 m = .error (.VersionError "ButtplugServerMessage"
          m.debugName "ButtplugSpecV0ServerMessage")
      ∧ tryFromServerMessageV1 m = .error (.VersionError "ButtplugServerMessage"
          m.debugName "ButtplugSpecV1ServerMessage")) := by
  intro m
  cases m <;>
    simp [tryFromServerMessageV0, tryFromServerMessageV1, Except.isOk,
      Except.toBool, ButtplugServerMessage.variant,
      ButtplugServerMessage.debugName, v0v1ServerVariants]

/-- Witness for C1 at concrete inputs. -/
theorem C1_server_message_down_conversion_witness :
    (tryFromServerMessageV0 (.Ok ⟨1⟩)).isOk = true
  ∧ tryFromServerMessageV0 (.Test ⟨5⟩) = .error (.VersionError
      "ButtplugServerMessage" "Test" "ButtplugSpecV0ServerMessage")
  ∧ tryFromServerMessageV1 (.BatteryLevelReading ⟨2⟩) = .error (.VersionError
      "ButtplugServerMessage" "BatteryLevelReading" "ButtplugSpecV1ServerMessage") := by
  refine ⟨(C1_server_message_down_conversion (.Ok ⟨1⟩)).1.mpr (by decide),
    ((C1_server_message_down_conversion (.Test ⟨5⟩)).2.2 (by decide)).1,
    ((C1_server_message_down_conversion (.BatteryLevelReading ⟨2⟩)).2.2 (by decide)).2⟩

/-- C2: for a two-motor diff vector, if both entries are `Some` and equal the
handler writes exactly one set-both frame `[0xF3, 0x00, value]` on Tx;
otherwise each `Some` entry gets exactly one per-motor frame
`[0xF3, N, value]` (N 1-based) and each `None` entry gets no write. -/
theorem C2_lovehoney_vibrate_frames :
    ∀ c0 c1 : Option Int,
      (∀ v : Int, c0 = some v → c1 = some v →
        lovehoneyVibrateWrites [c0, c1] =
          [⟨Endpoint.Tx, [0xF3, 0, v.toNat % 256], false⟩])
    ∧ ((c0 = none ∨ c1 = none ∨ c0 ≠ c1) →
        lovehoneyVibrateWrites [c0, c1] =
          (match c0 with
           | some v => [⟨Endpoint.Tx, [0xF3, 1, v.toNat % 256], false⟩]
           | none => []) ++
          (match c1 with
           | some v => [⟨Endpoint.Tx, [0xF3, 2, v.toNat % 256], false⟩]
           | none => [])) := by
  intro c0 c1
  cases c0 with
  | none =>
    cases c1 with
    | none =>
      exact ⟨fun v h _ => absurd h (by simp),
        fun _ => by simp [lovehoneyVibrateWrites, lovehoneyPerMotorWrites]⟩
    | some w =>
      exact ⟨fun v h _ => absurd h (by simp),
        fun _ => by simp [lovehoneyVibrateWrites, lovehoneyPerMotorWrites]⟩
  | some v =>
    cases c1 with
    | none =>
      refine ⟨fun u _ h => absurd h (by simp), fun _ => ?_⟩
      simp [lovehoneyVibrateWrites, allWindowPairsEq, lovehoneyPerMotorWrites]
    | some w =>
      constructor
      · rintro u hu hw
        injection hu with hu
        injection hw with hw
        subst hu
        subst hw
        simp [lovehoneyVibrateWrites, allWindowPairsEq]
      · rintro (h | h | hne)
        · exact absurd h (by simp)
        · exact absurd h (by simp)
        · have hvw : v ≠ w := by
            intro h
            exact hne (by rw [h])
          simp [lovehoneyVibrateWrites, allWindowPairsEq, hvw,
            lovehoneyPerMotorWrites]

/-- Witness for C2 at concrete diff vectors. -/
theorem C2_lovehoney_vibrate_frames_witness :
    lovehoneyVibrateWrites [some 10, some 10] =
      [⟨Endpoint.Tx, [0xF3, 0, 10], false⟩]
  ∧ lovehoneyVibrateWrites [some 0, some 63] =
      [⟨Endpoint.Tx, [0xF3, 1, 0], false⟩, ⟨Endpoint.Tx, [0xF3, 2, 63], false⟩]
  ∧ lovehoneyVibrateWrites [none, some 63] =
      [⟨Endpoint.Tx, [0xF3, 2, 63], false⟩] := by
  refine ⟨(C2_lovehoney_vibrate_frames (some 10) (some 10)).1 10 rfl rfl,
    (C2_lovehoney_vibrate_frames (some 0) (some 63)).2
      (Or.inr (Or.inr (by decide))),
    (C2_lovehoney_vibrate_frames none (some 63)).2 (Or.inl rfl)⟩

/-- C4: `DeviceManager::parse_message` first tries the device-command union
and routes to the device on success; on failure it tries the device-manager
union and handles the message itself; if both conversions fail it returns an
`UnexpectedMessageType` error. A device-command message whose index is not
in the devices map gives `DeviceNotAvailable(index)` without touching any
device; a registered index invokes that device. -/
theorem C4_parse_message_routing :
    ∀ (dm : DeviceManager) (msg : ButtplugClientMessage),
      (∀ device_msg, tryFromClientMessageToDeviceCommand msg = some device_msg →
          dm.parse_message msg = dm.parse_device_message device_msg
        ∧ (dm.devices.lookup device_msg.device_index = none →
            dm.parse_message msg =
              .error (.Device (.DeviceNotAvailable device_msg.device_index)))
        ∧ (∀ d, dm.devices.lookup device_msg.device_index = some d →
            dm.parse_message msg = d.parse_message device_msg))
    ∧ (tryFromClientMessageToDeviceCommand msg = none →
        ∀ manager_msg,
          tryFromClientMessageToDeviceManagerMessage msg = some manager_msg →
          dm.parse_message msg = dm.parse_device_manager_message manager_msg)
    ∧ (tryFromClientMessageToDeviceCommand msg = none →
        tryFromClientMessageToDeviceManagerMessage msg = none →
        dm.parse_message msg =
          .error (.Message (.UnexpectedMessageType msg.debugName))) := by
  intro dm msg
  refine ⟨fun device_msg h => ?_, fun h1 manager_msg h2 => ?_, fun h1 h2 => ?_⟩
  · have hm : dm.parse_message msg = dm.parse_device_message device_msg := by
      unfold DeviceManager.parse_message
      rw [h]
    refine ⟨hm, fun hl => ?_, fun d hl => ?_⟩
    · rw [hm]
      unfold DeviceManager.parse_device_message
      rw [hl]
    · rw [hm]
      unfold DeviceManager.parse_device_message
      rw [hl]
  · unfold DeviceManager.parse_message
    rw [h1, h2]
  · unfold DeviceManager.parse_message
    rw [h1, h2]

/-- Witness for C4 at concrete inputs: an empty manager rejects a Ping as
unexpected, reports an unknown device index, and routes a manager message. -/
theorem C4_parse_message_routing_witness :
    (DeviceManager.mk [] [] true).parse_message (.Ping ⟨1⟩) =
      .error (.Message (.UnexpectedMessageType "Ping"))
  ∧ (DeviceManager.mk [] [] true).parse_message (.VibrateCmd ⟨2, 9, []⟩) =
      .error (.Device (.DeviceNotAvailable 9))
  ∧ (DeviceManager.mk [] [] true).parse_message (.StartScanning ⟨3⟩) =
      (DeviceManager.mk [] [] true).parse_device_manager_message
        (.StartScanning ⟨3⟩) := by
  refine ⟨(C4_parse_message_routing (DeviceManager.mk [] [] true) (.Ping ⟨1⟩)).2.2
      rfl rfl,
    ((C4_parse_message_routing (DeviceManager.mk [] [] true)
      (.VibrateCmd ⟨2, 9, []⟩)).1 (.VibrateCmd ⟨2, 9, []⟩) rfl).2.1 rfl,
    (C4_parse_message_routing (DeviceManager.mk [] [] true) (.StartScanning ⟨3⟩)).2.1
      rfl (.StartScanning ⟨3⟩) rfl⟩

/-- C5: `DeviceManager::start_scanning` errors with `NoDeviceCommManagers`
on an empty comm-managers map, errors with `DeviceScanningAlreadyStarted`
when any manager is already scanning, and otherwise invokes `start_scanning`
on every manager, sends `ScanningStarted` then `ScanningFinished` to the
event loop, and returns Ok — for dead and live event loops alike (the
per-manager results and the send results are discarded). -/
theorem C5_start_scanning_spec :
    ∀ dm : DeviceManager,
      (dm.comm_managers = [] →
        dm.start_scanning =
          ⟨.error (.Unknown .NoDeviceCommManagers), [], []⟩)
    ∧ (dm.comm_managers ≠ [] →
        (∃ m ∈ dm.comm_managers, m.scanning_status = true) →
        dm.start_scanning =
          ⟨.error (.Device .DeviceScanningAlreadyStarted), [], []⟩)
    ∧ (dm.comm_managers ≠ [] →
        (∀ m ∈ dm.comm_managers, m.scanning_status = false) →
        dm.start_scanning.result = .ok (.Ok messages.Ok.default)
      ∧ dm.start_scanning.started =
          dm.comm_managers.map DeviceCommunicationManager.name
      ∧ dm.start_scanning.events =
          .ScanningStarted ::
            (if dm.event_loop_alive then [.ScanningFinished] else [])) := by
  intro dm
  refine ⟨fun h => ?_, fun h1 h2 => ?_, fun h1 h2 => ?_⟩
  · simp [DeviceManager.start_scanning, h]
  · have he : dm.comm_managers.isEmpty = false := by
      simpa [List.isEmpty_iff] using h1
    have ha : dm.comm_managers.any DeviceCommunicationManager.scanning_status = true := by
      rw [List.any_eq_true]
      obtain ⟨m, hm, hs⟩ := h2
      exact ⟨m, hm, hs⟩
    simp [DeviceManager.start_scanning, he, ha]
  · have he : dm.comm_managers.isEmpty = false := by
      simpa [List.isEmpty_iff] using h1
    have ha : dm.comm_managers.any DeviceCommunicationManager.scanning_status = false := by
      rw [List.any_eq_false]
      intro m hm
      simp [h2 m hm]
    refine ⟨?_, ?_, ?_⟩ <;> simp [DeviceManager.start_scanning, he, ha]

/-- Witness for C5: one registered idle manager gives Ok, starts it, and
probes the event loop with ScanningStarted then ScanningFinished. -/
theorem C5_start_scanning_spec_witness :
    (DeviceManager.mk [⟨"btleplug", false, true⟩] [] true).start_scanning.result =
      .ok (.Ok ⟨1⟩)
  ∧ (DeviceManager.mk [⟨"btleplug", false, true⟩] [] true).start_scanning.started =
      ["btleplug"]
  ∧ (DeviceManager.mk [⟨"btleplug", false, true⟩] [] true).start_scanning.events =
      [.ScanningStarted, .ScanningFinished]
  ∧ (DeviceManager.mk [] [] true).start_scanning =
      ⟨.error (.Unknown .NoDeviceCommManagers), [], []⟩ := by
  have h := (C5_start_scanning_spec
      (DeviceManager.mk [⟨"btleplug", false, true⟩] [] true)).2.2
    (by simp) (by intro m hm; simp at hm; rw [hm])
  exact ⟨h.1, h.2.1, h.2.2,
    (C5_start_scanning_spec (DeviceManager.mk [] [] true)).1 rfl⟩

lemma update_vibration_invalid (gcm : GenericCommandManager) (msg : VibrateCmd)
    (b : Bool) (hv : ¬ validVibrateCmd msg gcm.vibrations.length) :
    update_vibration gcm msg b =
      .error (.InvalidMessageContents "Invalid VibrateCmd") := by
  unfold update_vibration
  rw [if_neg hv]

lemma update_vibration_false_ok (gcm : GenericCommandManager) (msg : VibrateCmd)
    (hv : validVibrateCmd msg gcm.vibrations.length) :
    update_vibration gcm msg false = .ok
      (some (((List.range gcm.vibrations.length).map
          (vibrationDiffEntry gcm.vibration_step_counts gcm.vibrations msg)).map
          Prod.fst),
       GenericCommandManager.mk gcm.vibration_step_counts
         (((List.range gcm.vibrations.length).map
           (vibrationDiffEntry gcm.vibration_step_counts gcm.vibrations msg)).map
           Prod.snd)) := by
  unfold update_vibration
  rw [if_pos hv]
  simp

lemma lovehoneyPerMotorWrites_eq_nil :
    ∀ (i : Nat) (l : List (Option Int)), l.all Option.isNone = true →
      lovehoneyPerMotorWrites i l = [] := by
  intro i l
  induction l generalizing i with
  | nil => intro _; rfl
  | cons c rest ih =>
    intro h
    rw [List.all_cons] at h
    have hc := Bool.and_elim_left h
    have hrest := Bool.and_elim_right h
    cases c with
    | none => exact ih (i + 1) hrest
    | some v => simp [Option.isNone] at hc

lemma lovehoneyVibrateWrites_eq_nil (l : List (Option Int))
    (h : l.all Option.isNone = true) : lovehoneyVibrateWrites l = [] := by
  cases l with
  | nil => rfl
  | cons c rest =>
    cases c with
    | some v =>
      rw [List.all_cons] at h
      simp [Option.isNone] at h
    | none =>
      have hsel : lovehoneyVibrateWrites (none :: rest) =
          lovehoneyPerMotorWrites 1 (none :: rest) := by
        simp [lovehoneyVibrateWrites]
      rw [hsel]
      exact lovehoneyPerMotorWrites_eq_nil 1 (none :: rest) h

lemma vibrationDiffEntry_snd_addressed (sc : List Nat) (st : List (Option Int))
    (msg : VibrateCmd) (i : Nat) (s : VibrateSubcommand)
    (hf : msg.speeds.find? (fun x => x.index == i) = some s) :
    (vibrationDiffEntry sc st msg i).snd =
      some (quantizeSpeed s.speed (sc.getD i 0)) := by
  unfold vibrationDiffEntry
  rw [hf]
  dsimp only
  split <;> rfl

lemma vibrationDiffEntry_fst_none (sc : List Nat) (st1 : List (Option Int))
    (msg : VibrateCmd) (i : Nat)
    (hst : ∀ s, msg.speeds.find? (fun x => x.index == i) = some s →
        st1.getD i none = some (quantizeSpeed s.speed (sc.getD i 0))) :
    (vibrationDiffEntry sc st1 msg i).fst = none := by
  unfold vibrationDiffEntry
  cases hf : msg.speeds.find? (fun x => x.index == i) with
  | none => rfl
  | some s =>
    dsimp only
    rw [hst s hf]
    simp

lemma map_snd_getD (sc : List Nat) (st : List (Option Int)) (msg : VibrateCmd)
    (i : Nat) (hi : i < st.length) :
    (((List.range st.length).map (vibrationDiffEntry sc st msg)).map
        Prod.snd).getD i none =
      (vibrationDiffEntry sc st msg i).snd := by
  rw [List.getD_eq_getElem?_getD, List.getElem?_map, List.getElem?_map,
    List.getElem?_range hi]
  rfl

lemma second_call_all_none (sc : List Nat) (st : List (Option Int))
    (msg : VibrateCmd) :
    (((List.range ((((List.range st.length).map
          (vibrationDiffEntry sc st msg)).map Prod.snd)).length).map
        (vibrationDiffEntry sc
          (((List.range st.length).map (vibrationDiffEntry sc st msg)).map
            Prod.snd) msg)).map
      Prod.fst).all Option.isNone = true := by
  rw [List.all_eq_true]
  intro x hx
  rw [List.mem_map] at hx
  obtain ⟨p, hp, rfl⟩ := hx
  rw [List.mem_map] at hp
  obtain ⟨i, hi, rfl⟩ := hp
  rw [List.mem_range] at hi
  have hi' : i < st.length := by simpa using hi
  have hfst : (vibrationDiffEntry sc
      (((List.range st.length).map (vibrationDiffEntry sc st msg)).map
        Prod.snd) msg i).fst = none := by
    apply vibrationDiffEntry_fst_none
    intro s hf
    rw [map_snd_getD sc st msg i hi']
    exact vibrationDiffEntry_snd_addressed sc st msg i s hf
  rw [hfst]
  rfl

lemma handle_vibrate_cmd_eq (gcm : GenericCommandManager) (msg : VibrateCmd)
    (hv : validVibrateCmd msg gcm.vibrations.length) :
    handle_vibrate_cmd gcm msg = .ok
      (lovehoneyVibrateWrites (((List.range gcm.vibrations.length).map
          (vibrationDiffEntry gcm.vibration_step_counts gcm.vibrations msg)).map
          Prod.fst),
       GenericCommandManager.mk gcm.vibration_step_counts
         (((List.range gcm.vibrations.length).map
           (vibrationDiffEntry gcm.vibration_step_counts gcm.vibrations msg)).map
           Prod.snd)) := by
  unfold handle_vibrate_cmd
  rw [update_vibration_false_ok gcm msg hv]

/-- C3: if `LovehoneyDesire::handle_vibrate_cmd` succeeds on a `VibrateCmd`,
running the identical command again performs zero device writes: the
commanded-state diff marks every feature unchanged, so neither the set-both
branch nor any per-motor write executes. -/
theorem C3_second_identical_vibrate_writes_nothing :
    ∀ (gcm : GenericCommandManager) (msg : VibrateCmd)
      (w1 : List DeviceWriteCmd) (g1 : GenericCommandManager),
      handle_vibrate_cmd gcm msg = .ok (w1, g1) →
      ∃ g2 : GenericCommandManager, handle_vibrate_cmd g1 msg = .ok ([], g2) := by
  intro gcm msg w1 g1 h
  by_cases hv : validVibrateCmd msg gcm.vibrations.length
  case neg =>
    exfalso
    unfold handle_vibrate_cmd at h
    rw [update_vibration_invalid gcm msg false hv] at h
    exact absurd h (by simp)
  have h1 := handle_vibrate_cmd_eq gcm msg hv
  have hpair := h.symm.trans h1
  rw [Except.ok.injEq, Prod.mk.injEq] at hpair
  have hg := hpair.2
  subst hg
  have hv2 : validVibrateCmd msg
      (GenericCommandManager.mk gcm.vibration_step_counts
        (((List.range gcm.vibrations.length).map
          (vibrationDiffEntry gcm.vibration_step_counts gcm.vibrations msg)).map
          Prod.snd)).vibrations.length := by
    show validVibrateCmd msg
      ((((List.range gcm.vibrations.length).map
        (vibrationDiffEntry gcm.vibration_step_counts gcm.vibrations msg)).map
        Prod.snd)).length
    have hlen : ((((List.range gcm.vibrations.length).map
        (vibrationDiffEntry gcm.vibration_step_counts gcm.vibrations msg)).map
        Prod.snd)).length = gcm.vibrations.length := by
      simp
    rw [hlen]
    exact hv
  have h3 := handle_vibrate_cmd_eq (GenericCommandManager.mk
      gcm.vibration_step_counts
      (((List.range gcm.vibrations.length).map
        (vibrationDiffEntry gcm.vibration_step_counts gcm.vibrations msg)).map
        Prod.snd)) msg hv2
  dsimp only at h3
  rw [lovehoneyVibrateWrites_eq_nil _
    (second_call_all_none gcm.vibration_step_counts gcm.vibrations msg)] at h3
  exact ⟨_, h3⟩

/-- Witness for C3: a half-speed command on motor 0 of a fresh two-motor
manager writes one frame; the identical follow-up command writes nothing. -/
theorem C3_second_identical_vibrate_writes_nothing_witness :
    ∃ g2 : GenericCommandManager,
      handle_vibrate_cmd ⟨[20, 20], [some 10, none]⟩ ⟨1, 0, [⟨0, 1 / 2⟩]⟩ =
        .ok ([], g2) := by
  have hv : validVibrateCmd (⟨1, 0, [⟨0, 1 / 2⟩]⟩ : VibrateCmd)
      (GenericCommandManager.mk [20, 20] [none, none]).vibrations.length := by
    constructor
    · intro s hs
      simp at hs
      rw [hs]
      norm_num
    · simp
  have hfirst : handle_vibrate_cmd ⟨[20, 20], [none, none]⟩
      ⟨1, 0, [⟨0, 1 / 2⟩]⟩ =
        .ok ([⟨Endpoint.Tx, [0xF3, 1, 10], false⟩],
          ⟨[20, 20], [some 10, none]⟩) := by
    rw [handle_vibrate_cmd_eq ⟨[20, 20], [none, none]⟩ ⟨1, 0, [⟨0, 1 / 2⟩]⟩ hv]
    norm_num [vibrationDiffEntry, quantizeSpeed, round_eq, List.range_succ,
      lovehoneyVibrateWrites, allWindowPairsEq, lovehoneyPerMotorWrites]
    decide
  exact C3_second_identical_vibrate_writes_nothing ⟨[20, 20], [none, none]⟩
    ⟨1, 0, [⟨0, 1 / 2⟩]⟩ [⟨Endpoint.Tx, [0xF3, 1, 10], false⟩]
    ⟨[20, 20], [some 10, none]⟩ hfirst
